import Mathlib

/-!
Shallow embedding of the desk-matching core of the ai-occupancy-planner
repository (src/services/matcher.js and src/services/nlp.js).

Conventions of the embedding:
* JSON records become Lean structures; fields that may be absent in the data
  become `Option`.
* Timestamps (`last_used`, `last_reading`, `now`) are integers, milliseconds
  since the epoch, matching the values produced by `new Date(x) - new Date(y)`
  in the source.  The source divides millisecond differences by 3600000 and
  compares against whole hours; the embedding compares milliseconds directly,
  which is the same comparison.
* `Array.prototype.sort` with a comparator (stable per the ECMAScript spec,
  and the comparator used in the source is a total preorder) is modelled by
  `List.insertionSort`, which is a stable sort; a stable sort with respect to
  a total preorder has a unique result, so any stable sort is a faithful
  model.
* The asynchronous OpenAI call inside `parseQuery` is external; its outcome
  is modelled by `NlpOutcome`: either the try-block throws (`failure`, in
  which case the source sets `raw = {}`), or it yields some raw JSON object
  (`success raw`), whose fields may each have an unexpected type.
-/

namespace OccupancyPlanner

/-- Desk record from data/desks.json, as read by matcher.js. -/
structure Desk where
  id : String
  type : String
  zone : String
  area_id : String
  features : List String
  status : String
  last_used : Int
  location_description : String
deriving DecidableEq

/-- Zone/space record from data/spaces.json (`{id, name, parent_id}`). -/
structure Space where
  id : String
  name : String
  parent_id : Option String
deriving DecidableEq

/-- Occupancy record from data/occupancy.json. -/
structure OccupancyRec where
  area_id : String
  occupancy_percentage : Int
deriving DecidableEq

/-- Metrics record from data/metrics.json; `date` in milliseconds. -/
structure MetricRec where
  area_id : String
  date : Int
  utilization_rate : Rat
deriving DecidableEq

/-- Sensor record from data/sensors.json. -/
structure SensorRec where
  area_id : String
  status : String
  last_reading : Int
deriving DecidableEq

/-- Policy record from data/policies.json; only the id is consulted. -/
structure PolicyRec where
  id : String
deriving DecidableEq

/-- Stored employee preference record from data/employee_preferences.json.
Every preference field may be absent, mirroring the `|| default` reads in
matcher.js. -/
structure EmployeePrefRecord where
  employee_id : String
  desk_preferences : Option (List String)
  equipment_needs : Option (List String)
  adjacency_preferences : Option (List String)
  preferred_location : Option String
  accessibility_needs : Option String
deriving DecidableEq

/-- The reference-data collections that matcher.js loads at module level.
They are parameters of the embedding so that theorems quantify over them. -/
structure Env where
  desks : List Desk
  occupancy_data : List OccupancyRec
  spaces : List Space
  employee_preferences : List EmployeePrefRecord
  policies : List PolicyRec
  metrics : List MetricRec
  sensors : List SensorRec
deriving DecidableEq

/-- A JSON field value as tested by the coercions in nlp.js: the code only
distinguishes null, string, array-of-strings, and everything else
(undefined, number, object, ...). -/
inductive JVal where
  | jnull : JVal
  | jstr : String → JVal
  | jarr : List String → JVal
  | jother : JVal
deriving DecidableEq

/-- The raw object produced by `JSON.parse` inside parseQuery, before the
field-by-field coercion. -/
structure RawParsed where
  team : JVal
  desk_preferences : JVal
  equipment_needs : JVal
  preferred_days : JVal
  preferred_location : JVal
  accessibility_needs : JVal
  adjacency_preferences : JVal
deriving DecidableEq

/-- The `raw = {}` object of the catch branch: every field read is undefined. -/
def emptyRaw : RawParsed :=
  { team := .jother, desk_preferences := .jother, equipment_needs := .jother
    preferred_days := .jother, preferred_location := .jother
    accessibility_needs := .jother, adjacency_preferences := .jother }

/-- The typed object parseQuery returns. -/
structure Parsed where
  team : String
  desk_preferences : List String
  equipment_needs : List String
  preferred_days : List String
  preferred_location : String
  accessibility_needs : Option String
  adjacency_preferences : List String
deriving DecidableEq

/-- DEFAULT_PARSED from nlp.js. -/
def DEFAULT_PARSED : Parsed :=
  { team := "", desk_preferences := [], equipment_needs := []
    preferred_days := [], preferred_location := ""
    accessibility_needs := none, adjacency_preferences := [] }

/-- Coercion `typeof raw.f === "string" ? raw.f : ""` from nlp.js. -/
def coerceStr : JVal → String
  | .jstr s => s
  | _ => ""

/-- Coercion `Array.isArray(raw.f) ? raw.f : []` from nlp.js. -/
def coerceArr : JVal → List String
  | .jarr l => l
  | _ => []

/-- Coercion for accessibility_needs in nlp.js: null and strings pass
through, anything else becomes the default null. -/
def coerceNullableStr : JVal → Option String
  | .jnull => none
  | .jstr s => some s
  | _ => none

/-- The return object of parseQuery, built field by field from the raw
object (nlp.js lines 58-80). -/
def coerceRaw (raw : RawParsed) : Parsed :=
  { team := coerceStr raw.team
    desk_preferences := coerceArr raw.desk_preferences
    equipment_needs := coerceArr raw.equipment_needs
    preferred_days := coerceArr raw.preferred_days
    preferred_location := coerceStr raw.preferred_location
    accessibility_needs := coerceNullableStr raw.accessibility_needs
    adjacency_preferences := coerceArr raw.adjacency_preferences }

/-- Outcome of the try-block of parseQuery: either some step threw (API
call, response access, JSON.parse) or it produced a raw object. -/
inductive NlpOutcome where
  | failure : NlpOutcome
  | success : RawParsed → NlpOutcome
deriving DecidableEq

/-- parseQuery from nlp.js: on any failure the catch branch sets `raw = {}`,
then the coercions run either way. -/
def parseQuery : NlpOutcome → Parsed
  | .failure => coerceRaw emptyRaw
  | .success raw => coerceRaw raw

/-- Lowercasing as done by `String.prototype.toLowerCase` (ASCII range,
which is what both the source data and Char.toLower handle). -/
def strToLower (s : String) : String := ⟨s.data.map Char.toLower⟩

/-- Does `need` occur at the start of `hay`? Helper for substring search. -/
def charsStart : List Char → List Char → Bool
  | [], _ => true
  | _ :: _, [] => false
  | a :: as, b :: bs => a == b && charsStart as bs

/-- Does `need` occur contiguously inside `hay`? -/
def charsSub (need : List Char) : List Char → Bool
  | [] => need.isEmpty
  | b :: t => charsStart need (b :: t) || charsSub need t

/-- JS substring containment, `hay.includes(need)` for strings. -/
def strIncludes (hay need : String) : Bool := charsSub need.data hay.data

/-- One hour in milliseconds. -/
def msPerHour : Int := 3600000

/-- The lookup `prefsData.employee_preferences.find(e => e.employee_id ===
employeeId)`; an absent employeeId matches no record. -/
def findEmployeePrefs (env : Env) (employeeId : Option String) :
    Option EmployeePrefRecord :=
  env.employee_preferences.find? (fun e => some e.employee_id == employeeId)

/-- matcher.js lines 87-89: `deskPreferences.find(d =>
["standing","regular"].includes(d)) || null`. -/
def finalDeskTypeOf (deskPreferences : List String) : Option String :=
  deskPreferences.find? (fun d => ["standing", "regular"].contains d)

/-- The merged preference values driving the filter cascade, the partition
and the ranking. -/
structure EffectivePrefs where
  deskPreferences : List String
  finalDeskType : Option String
  equipNeeds : List String
  adjPrefs : List String
  preferredLocation : String
  accessibilityNeed : String
deriving DecidableEq

/-- matcher.js lines 58-99: stored preferences with `||` defaults, then the
parsed value wins per field exactly when it is non-empty (for
accessibility_needs: non-null, via `??`). -/
def effectivePrefs (env : Env) (employeeId : Option String)
    (parsed : Parsed) : EffectivePrefs :=
  let employeePrefs := findEmployeePrefs env employeeId
  let baseDeskPrefs := (employeePrefs.bind (fun e => e.desk_preferences)).getD []
  let baseEquipNeeds := (employeePrefs.bind (fun e => e.equipment_needs)).getD []
  let baseAdjPrefs := (employeePrefs.bind (fun e => e.adjacency_preferences)).getD []
  let baseLocation := (employeePrefs.bind (fun e => e.preferred_location)).getD ""
  let baseAccessibility := (employeePrefs.bind (fun e => e.accessibility_needs)).getD ""
  let deskPreferences :=
    if parsed.desk_preferences.isEmpty then baseDeskPrefs
    else parsed.desk_preferences
  { deskPreferences := deskPreferences
    finalDeskType := finalDeskTypeOf deskPreferences
    equipNeeds :=
      if parsed.equipment_needs.isEmpty then baseEquipNeeds
      else parsed.equipment_needs
    adjPrefs :=
      if parsed.adjacency_preferences.isEmpty then baseAdjPrefs
      else parsed.adjacency_preferences
    preferredLocation :=
      if parsed.preferred_location = "" then baseLocation
      else parsed.preferred_location
    accessibilityNeed := parsed.accessibility_needs.getD baseAccessibility }

/-- Occupancy lookup map (matcher.js lines 103-106), last write wins. -/
def buildOccMap (l : List OccupancyRec) : String → Option Int :=
  l.foldl
    (fun acc o => fun a =>
      if a = o.area_id then some o.occupancy_percentage else acc a)
    (fun _ => none)

/-- Latest-metrics map (matcher.js lines 109-115): keep the record with the
strictly larger date, first record wins ties. -/
def buildMetricsMap (l : List MetricRec) : String → Option MetricRec :=
  l.foldl
    (fun acc m => fun a =>
      if a = m.area_id then
        match acc m.area_id with
        | none => some m
        | some existing =>
          if existing.date < m.date then some m else some existing
      else acc a)
    (fun _ => none)

/-- The value stored in sensorMap (matcher.js line 120). -/
structure SensorEntry where
  status : String
  lastReading : Int
deriving DecidableEq

/-- Sensor map (matcher.js lines 118-121), last write wins. -/
def buildSensorMap (l : List SensorRec) : String → Option SensorEntry :=
  l.foldl
    (fun acc s => fun a =>
      if a = s.area_id then
        some { status := s.status, lastReading := s.last_reading }
      else acc a)
    (fun _ => none)

/-- Filter 4a (matcher.js line 126): availability. -/
def availabilityOk (d : Desk) : Bool := d.status == "available"

/-- Filter 4b (matcher.js line 128): enforced desk type. -/
def deskTypeOk (p : EffectivePrefs) (d : Desk) : Bool :=
  match p.finalDeskType with
  | none => true
  | some t => d.type == t

/-- Filter 4c first half (matcher.js lines 131-133): a standing desk only if
`standing` is among the merged desk preferences. -/
def standingOk (p : EffectivePrefs) (d : Desk) : Bool :=
  !(d.type == "standing" && !(p.deskPreferences.contains "standing"))

/-- Filter 4c second half (matcher.js lines 135-137): all requested
equipment features present. -/
def equipmentOk (p : EffectivePrefs) (d : Desk) : Bool :=
  p.equipNeeds.all (fun need => d.features.contains need)

/-- Filter 4d (matcher.js lines 140-148): zone name match, or the parent
floor name match resolved through spacesData. -/
def locationOk (env : Env) (p : EffectivePrefs) (d : Desk) : Bool :=
  if p.preferredLocation = "" then true
  else if d.zone == p.preferredLocation then true
  else
    match env.spaces.find? (fun s => s.name == d.zone) with
    | none => false
    | some zone =>
      match env.spaces.find? (fun s => some s.id == zone.parent_id) with
      | none => false
      | some floor => floor.name == p.preferredLocation

/-- Filter 4e (matcher.js lines 151-155): with POL-005 present, reject when
the recorded occupancy is at least 80.  A missing entry makes the JS
comparison `undefined >= 80` false, hence no rejection. -/
def capacityOk (env : Env) (d : Desk) : Bool :=
  match env.policies.find? (fun p => p.id == "POL-005") with
  | none => true
  | some _ =>
    match buildOccMap env.occupancy_data d.area_id with
    | none => true
    | some occ => if 80 ≤ occ then false else true

/-- Filter 4f (matcher.js lines 158-165): with POL-002 present, reject when
less than four hours have elapsed since last use. -/
def sanitizationOk (env : Env) (now : Int) (d : Desk) : Bool :=
  match env.policies.find? (fun p => p.id == "POL-002") with
  | none => true
  | some _ =>
    if now - d.last_used < 4 * msPerHour then false else true

/-- Filter 4g (matcher.js lines 168-174): the need must be a feature tag or
a substring of the lowercased location description.  Note the source
lowercases only the description, not the need. -/
def accessibilityOk (p : EffectivePrefs) (d : Desk) : Bool :=
  if p.accessibilityNeed = "" then true
  else
    let desc := strToLower d.location_description
    d.features.contains p.accessibilityNeed || strIncludes desc p.accessibilityNeed

/-- Filter 4h (matcher.js lines 177-186): sensor must be active; the
computed reading age is then discarded by the TEST OVERRIDE on line 184,
which forces `ageHours = 0` before the `> 1` comparison. -/
def sensorOk (env : Env) (now : Int) (d : Desk) : Bool :=
  match buildSensorMap env.sensors d.area_id with
  | none => true
  | some sensor =>
    if sensor.status ≠ "active" then false
    else
      let ageHours : Int := (now - sensor.lastReading) / msPerHour
      let ageHours : Int := 0
      if 1 < ageHours then false else true

/-- The filter cascade of matcher.js lines 124-190, as the ordered list of
its nine predicates. -/
def cascadePreds (env : Env) (p : EffectivePrefs) (now : Int) :
    List (Desk → Bool) :=
  [availabilityOk, deskTypeOk p, standingOk p, equipmentOk p,
   locationOk env p, capacityOk env, sanitizationOk env now,
   accessibilityOk p, sensorOk env now]

/-- Short-circuit conjunction of a list of predicates, the shape of the
early-return filter body. -/
def passAll (preds : List (Desk → Bool)) (d : Desk) : Bool :=
  preds.all (fun pr => pr d)

/-- The `candidates` array of matcher.js line 124: desks surviving the cascade. -/
def candidatesOf (env : Env) (p : EffectivePrefs) (now : Int) : List Desk :=
  env.desks.filter (passAll (cascadePreds env p now))

/-- matcher.js lines 196-198: zone name contains some adjacency token,
case-insensitively (both sides lowercased). -/
def isAdjacent (p : EffectivePrefs) (d : Desk) : Bool :=
  p.adjPrefs.any (fun pref => strIncludes (strToLower d.zone) (strToLower pref))

/-- Number of requested equipment tags a desk carries (matcher.js 209-210). -/
def matchCount (equipNeeds : List String) (d : Desk) : Nat :=
  (equipNeeds.filter (fun n => d.features.contains n)).length

/-- Utilization lookup `metricsMap[d.area_id]?.utilization_rate ?? 1` of matcher.js lines 218-219. -/
def utilizationOf (mMap : String → Option MetricRec) (d : Desk) : Rat :=
  match mMap d.area_id with
  | none => 1
  | some m => m.utilization_rate

/-- The comparator of matcher.js lines 207-221, expressed as the relation
"the comparator value of (a, b) is at most zero", i.e. a may be placed
before b. -/
def deskLE (equipNeeds : List String) (mMap : String → Option MetricRec)
    (a b : Desk) : Bool :=
  let matchA := matchCount equipNeeds a
  let matchB := matchCount equipNeeds b
  if matchB ≠ matchA then decide (matchB < matchA)
  else if a.last_used ≠ b.last_used then decide (a.last_used < b.last_used)
  else decide (utilizationOf mMap a ≤ utilizationOf mMap b)

/-- The sorter of matcher.js lines 207-221.  `Array.prototype.sort` is
stable and the comparator is a total preorder, so the stable
`List.insertionSort` computes the same list. -/
def sorter (equipNeeds : List String) (mMap : String → Option MetricRec)
    (l : List Desk) : List Desk :=
  List.insertionSort (fun a b => deskLE equipNeeds mMap a b = true) l

/-- The effective preferences computed by a matchDesks call. -/
def effectiveOf (env : Env) (employeeId : Option String)
    (nlp : NlpOutcome) : EffectivePrefs :=
  effectivePrefs env employeeId (parseQuery nlp)

/-- The `adjList` array of matcher.js lines 193-201 (forEach push is a filter). -/
def adjListOf (env : Env) (employeeId : Option String) (nlp : NlpOutcome)
    (now : Int) : List Desk :=
  (candidatesOf env (effectiveOf env employeeId nlp) now).filter
    (fun d => isAdjacent (effectiveOf env employeeId nlp) d)

/-- The `otherList` array of matcher.js lines 193-201. -/
def otherListOf (env : Env) (employeeId : Option String) (nlp : NlpOutcome)
    (now : Int) : List Desk :=
  (candidatesOf env (effectiveOf env employeeId nlp) now).filter
    (fun d => !(isAdjacent (effectiveOf env employeeId nlp) d))

/-- The ranked first partition, `sorter(adjList)` of matcher.js line 225. -/
def rankedAdjOf (env : Env) (employeeId : Option String) (nlp : NlpOutcome)
    (now : Int) : List Desk :=
  sorter (effectiveOf env employeeId nlp).equipNeeds
    (buildMetricsMap env.metrics) (adjListOf env employeeId nlp now)

/-- The ranked second partition, `sorter(otherList)` of matcher.js line 225. -/
def rankedOtherOf (env : Env) (employeeId : Option String) (nlp : NlpOutcome)
    (now : Int) : List Desk :=
  sorter (effectiveOf env employeeId nlp).equipNeeds
    (buildMetricsMap env.metrics) (otherListOf env employeeId nlp now)

/-- matchDesks of matcher.js: effective preferences, cascade, partition,
per-partition sort, concatenation. -/
def matchDesks (env : Env) (employeeId : Option String) (nlp : NlpOutcome)
    (now : Int) : List Desk :=
  rankedAdjOf env employeeId nlp now ++ rankedOtherOf env employeeId nlp now

/-- Modelled from the spec: the intended sensor recency test, reading age at
most one hour, which the TEST OVERRIDE in the source neutralizes. -/
def specSensorFresh (now lastReading : Int) : Bool :=
  decide (now - lastReading ≤ msPerHour)

/-- The multi-key ranking relation the spec describes for two desks placed
A before B: match count descending, then last_used ascending, then
utilization ascending. -/
def rankRel (equipNeeds : List String) (mMap : String → Option MetricRec)
    (a b : Desk) : Prop :=
  matchCount equipNeeds b ≤ matchCount equipNeeds a ∧
    (matchCount equipNeeds a = matchCount equipNeeds b →
      a.last_used ≤ b.last_used ∧
        (a.last_used = b.last_used →
          utilizationOf mMap a ≤ utilizationOf mMap b))

/-- The effective preferences obtained from the stored employee record
alone, with the `||` defaults of matcher.js lines 64-68. -/
def storedEffective (env : Env) (employeeId : Option String) :
    EffectivePrefs :=
  let employeePrefs := findEmployeePrefs env employeeId
  let baseDeskPrefs := (employeePrefs.bind (fun e => e.desk_preferences)).getD []
  { deskPreferences := baseDeskPrefs
    finalDeskType := finalDeskTypeOf baseDeskPrefs
    equipNeeds := (employeePrefs.bind (fun e => e.equipment_needs)).getD []
    adjPrefs := (employeePrefs.bind (fun e => e.adjacency_preferences)).getD []
    preferredLocation := (employeePrefs.bind (fun e => e.preferred_location)).getD ""
    accessibilityNeed := (employeePrefs.bind (fun e => e.accessibility_needs)).getD "" }

/-! ## General lemmas about the pipeline -/

theorem sorter_perm (equipNeeds : List String)
    (mMap : String → Option MetricRec) (l : List Desk) :
    (sorter equipNeeds mMap l).Perm l :=
  List.perm_insertionSort _ l

theorem candidates_pred {env : Env} {p : EffectivePrefs} {now : Int}
    {d : Desk} (h : d ∈ candidatesOf env p now) (pr : Desk → Bool)
    (hpr : pr ∈ cascadePreds env p now) : pr d = true := by
  have h2 := (List.mem_filter.mp h).2
  simp only [passAll] at h2
  exact List.all_eq_true.mp h2 pr hpr

theorem mem_matchDesks {env : Env} {eid : Option String} {nlp : NlpOutcome}
    {now : Int} {d : Desk} (h : d ∈ matchDesks env eid nlp now) :
    d ∈ candidatesOf env (effectiveOf env eid nlp) now := by
  unfold matchDesks rankedAdjOf rankedOtherOf at h
  rcases List.mem_append.mp h with h1 | h1
  · have h2 := (sorter_perm _ _ _).mem_iff.mp h1
    unfold adjListOf at h2
    exact (List.mem_filter.mp h2).1
  · have h2 := (sorter_perm _ _ _).mem_iff.mp h1
    unfold otherListOf at h2
    exact (List.mem_filter.mp h2).1

theorem matchDesks_perm_candidates (env : Env) (eid : Option String)
    (nlp : NlpOutcome) (now : Int) :
    (matchDesks env eid nlp now).Perm
      (candidatesOf env (effectiveOf env eid nlp) now) := by
  unfold matchDesks rankedAdjOf rankedOtherOf adjListOf otherListOf
  refine ((sorter_perm _ _ _).append (sorter_perm _ _ _)).trans ?_
  exact List.filter_append_perm _ _

/-! ## C5: the filter cascade is order-independent -/

/-- C5: evaluating the nine cascade predicates in any permuted order, with
short-circuit conjunction, filters the desk set to the same survivors as
the implemented order, because each predicate only looks at the desk and
the fixed request context. -/
theorem c5_cascade_order_independent (env : Env) (p : EffectivePrefs)
    (now : Int) (ps : List (Desk → Bool))
    (hperm : ps.Perm (cascadePreds env p now)) :
    env.desks.filter (passAll ps) = candidatesOf env p now := by
  unfold candidatesOf
  apply List.filter_congr
  intro d _
  rw [Bool.eq_iff_iff]
  simp only [passAll, List.all_eq_true]
  constructor
  · intro h pr hpr
    exact h pr (hperm.mem_iff.mpr hpr)
  · intro h pr hpr
    exact h pr (hperm.mem_iff.mp hpr)

/-- Witness for C5 at a concrete environment, with the cascade evaluated in
reversed order. -/
def deskW5 : Desk :=
  { id := "D-5", type := "regular", zone := "Z", area_id := "A1",
    features := [], status := "available", last_used := 0,
    location_description := "" }

def envW5 : Env :=
  { desks := [deskW5], occupancy_data := [], spaces := [],
    employee_preferences := [], policies := [], metrics := [], sensors := [] }

def prefsW5 : EffectivePrefs :=
  { deskPreferences := [], finalDeskType := none, equipNeeds := [],
    adjPrefs := [], preferredLocation := "", accessibilityNeed := "" }

theorem c5_cascade_order_independent_witness :
    envW5.desks.filter (passAll ((cascadePreds envW5 prefsW5 0).reverse)) =
      candidatesOf envW5 prefsW5 0 :=
  c5_cascade_order_independent envW5 prefsW5 0 _ (List.reverse_perm _)

/-! ## C6: the sanitization cooldown policy -/

/-- C6: while POL-002 is among the active policies, no desk whose last use
is strictly within four hours of the current time is returned. -/
theorem c6_sanitization_cooldown (env : Env) (eid : Option String)
    (nlp : NlpOutcome) (now : Int) (d : Desk)
    (hpol : ∃ pol ∈ env.policies, pol.id = "POL-002")
    (hd : d ∈ matchDesks env eid nlp now) :
    ¬ (now - d.last_used < 4 * msPerHour) := by
  have hc := mem_matchDesks hd
  have hs := candidates_pred hc (sanitizationOk env now)
    (by simp [cascadePreds])
  obtain ⟨pol, hmem, hid⟩ := hpol
  have hsome : (env.policies.find? (fun p => p.id == "POL-002")).isSome := by
    rw [List.find?_isSome]
    exact ⟨pol, hmem, by simp [hid]⟩
  obtain ⟨q, hq⟩ := Option.isSome_iff_exists.mp hsome
  unfold sanitizationOk at hs
  rw [hq] at hs
  intro hlt
  simp [hlt] at hs

/-- Witness for C6: with POL-002 active, a desk last used five hours ago is
returned and indeed is not within the four-hour window. -/
def deskW6 : Desk :=
  { id := "D-6", type := "regular", zone := "Z", area_id := "A1",
    features := [], status := "available", last_used := 0,
    location_description := "" }

def envW6 : Env :=
  { desks := [deskW6], occupancy_data := [], spaces := [],
    employee_preferences := [], policies := [{ id := "POL-002" }],
    metrics := [], sensors := [] }

theorem c6_sanitization_cooldown_witness :
    ¬ ((5 * msPerHour : Int) - deskW6.last_used < 4 * msPerHour) :=
  c6_sanitization_cooldown envW6 none .failure (5 * msPerHour) deskW6
    ⟨{ id := "POL-002" }, by decide, rfl⟩ (by decide)

/-! ## C10: a missing occupancy entry never triggers the capacity filter -/

/-- C10: the capacity predicate passes every desk whose area has no entry
in the occupancy snapshot, even with POL-005 active; it can only reject a
desk when POL-005 is present and a recorded occupancy of at least 80
exists for the area. -/
theorem c10_capacity_missing_occupancy (env : Env) (d : Desk) :
    (buildOccMap env.occupancy_data d.area_id = none →
      capacityOk env d = true) ∧
    (capacityOk env d = false →
      (∃ pol ∈ env.policies, pol.id = "POL-005") ∧
      ∃ v, buildOccMap env.occupancy_data d.area_id = some v ∧ 80 ≤ v) := by
  unfold capacityOk
  cases hf : env.policies.find? (fun p => p.id == "POL-005") with
  | none =>
    simp
  | some q =>
    cases ho : buildOccMap env.occupancy_data d.area_id with
    | none =>
      simp
    | some v =>
      constructor
      · intro h
        simp at h
      · intro h
        have h80 : 80 ≤ v := by
          by_contra hno
          simp [hno] at h
        refine ⟨⟨q, List.mem_of_find?_eq_some hf, ?_⟩, v, rfl, h80⟩
        simpa using List.find?_some hf

/-- Witness for C10: POL-005 active, desk area absent from the occupancy
snapshot, capacity predicate passes. -/
def deskW10 : Desk :=
  { id := "D-10", type := "regular", zone := "Z", area_id := "A9",
    features := [], status := "available", last_used := 0,
    location_description := "" }

def envW10 : Env :=
  { desks := [deskW10], occupancy_data := [{ area_id := "A1", occupancy_percentage := 95 }],
    spaces := [], employee_preferences := [],
    policies := [{ id := "POL-005" }], metrics := [], sensors := [] }

theorem c10_capacity_missing_occupancy_witness :
    capacityOk envW10 deskW10 = true :=
  (c10_capacity_missing_occupancy envW10 deskW10).1 (by decide)

/-! ## C2: desk-type resolution is first-token-wins, not standing-first -/

def deskX2 : Desk :=
  { id := "D-2", type := "standing", zone := "Z", area_id := "A1",
    features := [], status := "available", last_used := 0,
    location_description := "" }

def envX2 : Env :=
  { desks := [deskX2], occupancy_data := [], spaces := [],
    employee_preferences := [], policies := [], metrics := [], sensors := [] }

def nlpX2 : NlpOutcome :=
  .success { emptyRaw with desk_preferences := .jarr ["regular", "standing"] }

/-- C2 counterexample: with merged desk preferences ["regular", "standing"]
the token standing is present, yet the enforced desk type is regular, and
an available standing desk whose preference list includes standing is
excluded from the result (the claim predicts it is the enforced type and
the desk is returned). -/
theorem c2_counterexample :
    "standing" ∈ (effectiveOf envX2 none nlpX2).deskPreferences ∧
    (effectiveOf envX2 none nlpX2).finalDeskType = some "regular" ∧
    matchDesks envX2 none nlpX2 0 = [] := by decide

/-- C2 amended: the enforced desk type is the first token of the merged
desk-preference list that is standing or regular — whichever of the two
occurs earlier wins, rather than standing having priority; if the list
contains exactly one of the two tokens that token is enforced, and with
neither token no type is enforced. -/
theorem c2_first_token_priority (l : List String) :
    ("standing" ∉ l → "regular" ∉ l → finalDeskTypeOf l = none) ∧
    ("standing" ∈ l → "regular" ∉ l → finalDeskTypeOf l = some "standing") ∧
    ("regular" ∈ l → "standing" ∉ l → finalDeskTypeOf l = some "regular") ∧
    ("standing" ∈ l → "regular" ∈ l →
      l.indexOf "standing" < l.indexOf "regular" →
      finalDeskTypeOf l = some "standing") ∧
    ("standing" ∈ l → "regular" ∈ l →
      l.indexOf "regular" < l.indexOf "standing" →
      finalDeskTypeOf l = some "regular") := by
  induction l with
  | nil => simp [finalDeskTypeOf]
  | cons x xs ih =>
    by_cases hs : x = "standing"
    · subst hs
      have hfind : finalDeskTypeOf ("standing" :: xs) = some "standing" :=
        List.find?_cons_of_pos _ (by decide)
      refine ⟨?_, ?_, ?_, ?_, ?_⟩
      · intro h _
        exact absurd (List.mem_cons_self _ _) h
      · intro _ _
        exact hfind
      · intro _ hns
        exact absurd (List.mem_cons_self _ _) hns
      · intro _ _ _
        exact hfind
      · intro _ _ hlt
        rw [List.indexOf_cons_self] at hlt
        exact absurd hlt (Nat.not_lt_zero _)
    · by_cases hr : x = "regular"
      · subst hr
        have hfind : finalDeskTypeOf ("regular" :: xs) = some "regular" :=
          List.find?_cons_of_pos _ (by decide)
        refine ⟨?_, ?_, ?_, ?_, ?_⟩
        · intro _ h
          exact absurd (List.mem_cons_self _ _) h
        · intro _ hnr
          exact absurd (List.mem_cons_self _ _) hnr
        · intro _ _
          exact hfind
        · intro _ _ hlt
          rw [List.indexOf_cons_self] at hlt
          exact absurd hlt (Nat.not_lt_zero _)
        · intro _ _ _
          exact hfind
      · have hfind : finalDeskTypeOf (x :: xs) = finalDeskTypeOf xs := by
          unfold finalDeskTypeOf
          rw [List.find?_cons_of_neg]
          simp [hs, hr]
        have hmems : ∀ t : String, t ≠ x → ((t ∈ x :: xs) ↔ t ∈ xs) := by
          intro t ht
          simp [List.mem_cons, ht]
        have hixs : List.indexOf "standing" (x :: xs) =
            (List.indexOf "standing" xs).succ :=
          List.indexOf_cons_ne _ hs
        have hixr : List.indexOf "regular" (x :: xs) =
            (List.indexOf "regular" xs).succ :=
          List.indexOf_cons_ne _ hr
        have hts : ("standing" : String) ≠ x := fun h => hs h.symm
        have htr : ("regular" : String) ≠ x := fun h => hr h.symm
        refine ⟨?_, ?_, ?_, ?_, ?_⟩
        · intro h1 h2
          rw [hfind]
          exact ih.1 (fun hm => h1 ((hmems _ hts).mpr hm))
            (fun hm => h2 ((hmems _ htr).mpr hm))
        · intro h1 h2
          rw [hfind]
          exact ih.2.1 ((hmems _ hts).mp h1) (fun hm => h2 ((hmems _ htr).mpr hm))
        · intro h1 h2
          rw [hfind]
          exact ih.2.2.1 ((hmems _ htr).mp h1) (fun hm => h2 ((hmems _ hts).mpr hm))
        · intro h1 h2 hlt
          rw [hixs, hixr, Nat.succ_lt_succ_iff] at hlt
          rw [hfind]
          exact ih.2.2.2.1 ((hmems _ hts).mp h1) ((hmems _ htr).mp h2) hlt
        · intro h1 h2 hlt
          rw [hixs, hixr, Nat.succ_lt_succ_iff] at hlt
          rw [hfind]
          exact ih.2.2.2.2 ((hmems _ hts).mp h1) ((hmems _ htr).mp h2) hlt

/-- Witness for the amended C2 statement on a concrete preference list. -/
theorem c2_first_token_priority_witness :
    finalDeskTypeOf ["near-window", "regular"] = some "regular" :=
  (c2_first_token_priority ["near-window", "regular"]).2.2.1 (by decide)
    (by decide)

/-! ## C7: the ranking comparator orders each partition -/

theorem deskLE_iff (e : List String) (m : String → Option MetricRec)
    (a b : Desk) : deskLE e m a b = true ↔
      (matchCount e b < matchCount e a ∨
        (matchCount e a = matchCount e b ∧
          (a.last_used < b.last_used ∨
            (a.last_used = b.last_used ∧
              utilizationOf m a ≤ utilizationOf m b)))) := by
  have hmain : deskLE e m a b =
      (if matchCount e b ≠ matchCount e a then
        decide (matchCount e b < matchCount e a)
      else if a.last_used ≠ b.last_used then
        decide (a.last_used < b.last_used)
      else decide (utilizationOf m a ≤ utilizationOf m b)) := rfl
  rw [hmain]
  by_cases h1 : matchCount e b = matchCount e a
  · rw [if_neg (not_not_intro h1)]
    by_cases h2 : a.last_used = b.last_used
    · rw [if_neg (not_not_intro h2)]
      simp only [decide_eq_true_eq]
      constructor
      · intro h
        exact Or.inr ⟨h1.symm, Or.inr ⟨h2, h⟩⟩
      · rintro (h | ⟨_, hh | ⟨_, hh⟩⟩)
        · exact absurd h (by omega)
        · exact absurd hh (by omega)
        · exact hh
    · rw [if_pos h2]
      simp only [decide_eq_true_eq]
      constructor
      · intro h
        exact Or.inr ⟨h1.symm, Or.inl h⟩
      · rintro (h | ⟨_, hh | ⟨heq, _⟩⟩)
        · exact absurd h (by omega)
        · exact hh
        · exact absurd heq h2
  · rw [if_pos h1]
    simp only [decide_eq_true_eq]
    constructor
    · intro h
      exact Or.inl h
    · rintro (h | ⟨heq, _⟩)
      · exact h
      · exact absurd heq.symm h1

theorem deskLE_total (e : List String) (m : String → Option MetricRec)
    (a b : Desk) : deskLE e m a b = true ∨ deskLE e m b a = true := by
  rw [deskLE_iff, deskLE_iff]
  rcases Nat.lt_trichotomy (matchCount e b) (matchCount e a) with h | h | h
  · exact Or.inl (Or.inl h)
  · rcases Int.lt_trichotomy a.last_used b.last_used with h2 | h2 | h2
    · exact Or.inl (Or.inr ⟨h.symm, Or.inl h2⟩)
    · rcases le_total (utilizationOf m a) (utilizationOf m b) with h3 | h3
      · exact Or.inl (Or.inr ⟨h.symm, Or.inr ⟨h2, h3⟩⟩)
      · exact Or.inr (Or.inr ⟨h, Or.inr ⟨h2.symm, h3⟩⟩)
    · exact Or.inr (Or.inr ⟨h, Or.inl h2⟩)
  · exact Or.inr (Or.inl h)

theorem deskLE_trans (e : List String) (m : String → Option MetricRec)
    (a b c : Desk) (hab : deskLE e m a b = true)
    (hbc : deskLE e m b c = true) : deskLE e m a c = true := by
  rw [deskLE_iff] at hab hbc ⊢
  rcases hab with h1 | ⟨h1, h2⟩ <;> rcases hbc with g1 | ⟨g1, g2⟩
  · exact Or.inl (by omega)
  · exact Or.inl (by omega)
  · exact Or.inl (by omega)
  · refine Or.inr ⟨by omega, ?_⟩
    rcases h2 with h2 | ⟨h2, h3⟩ <;> rcases g2 with g2 | ⟨g2, g3⟩
    · exact Or.inl (by omega)
    · exact Or.inl (by omega)
    · exact Or.inl (by omega)
    · exact Or.inr ⟨by omega, le_trans h3 g3⟩

theorem deskLE_imp_rankRel {e : List String} {m : String → Option MetricRec}
    {a b : Desk} (h : deskLE e m a b = true) : rankRel e m a b := by
  rw [deskLE_iff] at h
  unfold rankRel
  rcases h with h | ⟨h1, h2 | ⟨h2, h3⟩⟩
  · exact ⟨Nat.le_of_lt h, fun heq => absurd heq (by omega)⟩
  · exact ⟨Nat.le_of_eq h1.symm,
      fun _ => ⟨Int.le_of_lt h2, fun heq => absurd heq (by omega)⟩⟩
  · exact ⟨Nat.le_of_eq h1.symm, fun _ => ⟨Int.le_of_eq h2, fun _ => h3⟩⟩

theorem sorter_pairwise (e : List String) (m : String → Option MetricRec)
    (l : List Desk) : List.Pairwise (rankRel e m) (sorter e m l) := by
  haveI : IsTotal Desk (fun a b => deskLE e m a b = true) :=
    ⟨deskLE_total e m⟩
  haveI : IsTrans Desk (fun a b => deskLE e m a b = true) :=
    ⟨deskLE_trans e m⟩
  have hs := List.sorted_insertionSort
    (fun a b => deskLE e m a b = true) l
  exact hs.imp (fun h => deskLE_imp_rankRel h)

/-- C7: within each sorted partition of the matchDesks output, any desk A
placed before a desk B has at least as many matched equipment tags; on
equal match counts A was used no later; and on equal match counts and
last-use times A has no larger utilization, a missing metrics record
counting as utilization 1. -/
theorem c7_ranking_within_partitions (env : Env) (eid : Option String)
    (nlp : NlpOutcome) (now : Int) :
    List.Pairwise
      (rankRel (effectiveOf env eid nlp).equipNeeds
        (buildMetricsMap env.metrics))
      (rankedAdjOf env eid nlp now) ∧
    List.Pairwise
      (rankRel (effectiveOf env eid nlp).equipNeeds
        (buildMetricsMap env.metrics))
      (rankedOtherOf env eid nlp now) :=
  ⟨sorter_pairwise _ _ _, sorter_pairwise _ _ _⟩

/-! ## C8: the adjacency-preferred partition comes first -/

/-- C8: the output is exactly the ranked adjacency-preferred partition
followed by the ranked remaining partition; every desk of the first part
is adjacency-preferred, every desk of the second is not, and the output is
a permutation of the eligible candidates, so each eligible desk lands in
exactly one partition and every adjacency-preferred desk precedes every
non-preferred desk in the final order. -/
theorem c8_adjacency_partition (env : Env) (eid : Option String)
    (nlp : NlpOutcome) (now : Int) :
    (∀ d ∈ rankedAdjOf env eid nlp now,
      isAdjacent (effectiveOf env eid nlp) d = true) ∧
    (∀ d ∈ rankedOtherOf env eid nlp now,
      isAdjacent (effectiveOf env eid nlp) d = false) ∧
    matchDesks env eid nlp now =
      rankedAdjOf env eid nlp now ++ rankedOtherOf env eid nlp now ∧
    (matchDesks env eid nlp now).Perm
      (candidatesOf env (effectiveOf env eid nlp) now) := by
  refine ⟨?_, ?_, rfl, matchDesks_perm_candidates env eid nlp now⟩
  · intro d hd
    unfold rankedAdjOf at hd
    have h2 := (sorter_perm _ _ _).mem_iff.mp hd
    unfold adjListOf at h2
    exact (List.mem_filter.mp h2).2
  · intro d hd
    unfold rankedOtherOf at hd
    have h2 := (sorter_perm _ _ _).mem_iff.mp hd
    unfold otherListOf at h2
    have h3 := (List.mem_filter.mp h2).2
    simpa using h3

/-- Witness for C8 at a concrete environment with an adjacency match. -/
def deskW8 : Desk :=
  { id := "D-8", type := "regular", zone := "Marketing Zone",
    area_id := "A1", features := [], status := "available", last_used := 0,
    location_description := "" }

def envW8 : Env :=
  { desks := [deskW8], occupancy_data := [], spaces := [],
    employee_preferences := [], policies := [], metrics := [], sensors := [] }

def nlpW8 : NlpOutcome :=
  .success { emptyRaw with adjacency_preferences := .jarr ["marketing"] }

theorem c8_adjacency_partition_witness :
    isAdjacent (effectiveOf envW8 none nlpW8) deskW8 = true :=
  (c8_adjacency_partition envW8 none nlpW8 0).1 deskW8 (by decide)

/-! ## C9: NLP failure falls back to stored preferences -/

/-- C9: when the NLP call fails in any way, parseQuery returns the
all-empty default object; every effective preference field then comes from
the stored employee record (fully empty when no record exists, since every
base value defaults); and matchDesks still produces a well-defined ordered
list, a permutation of the desks passing the cascade. -/
theorem c9_nlp_failure_fallback :
    parseQuery .failure = DEFAULT_PARSED ∧
    (∀ (env : Env) (eid : Option String),
      effectiveOf env eid .failure = storedEffective env eid) ∧
    (∀ (env : Env) (eid : Option String) (now : Int),
      (matchDesks env eid .failure now).Perm
        (candidatesOf env (effectiveOf env eid .failure) now)) :=
  ⟨rfl, fun _ _ => rfl,
    fun env eid now => matchDesks_perm_candidates env eid .failure now⟩

/-! ## C3: the accessibility need is matched verbatim, not case-insensitively -/

def deskX3 : Desk :=
  { id := "D-3", type := "regular", zone := "Zone A", area_id := "A1",
    features := [], status := "available", last_used := 0,
    location_description := "Wheelchair accessible" }

def envX3 : Env :=
  { desks := [deskX3], occupancy_data := [], spaces := [],
    employee_preferences := [], policies := [], metrics := [], sensors := [] }

def nlpX3 : NlpOutcome :=
  .success { emptyRaw with accessibility_needs := .jstr "Wheelchair" }

/-- C3 counterexample: the effective need Wheelchair occurs
case-insensitively in the location description of the desk, which meets
every other filter, yet matchDesks rejects it: the source lowercases only
the description, so a need containing an uppercase letter never matches
it. -/
theorem c3_counterexample :
    (effectiveOf envX3 none nlpX3).accessibilityNeed = "Wheelchair" ∧
    strIncludes (strToLower deskX3.location_description)
      (strToLower "Wheelchair") = true ∧
    deskX3.status = "available" ∧
    matchDesks envX3 none nlpX3 0 = [] := by decide

/-- C3 amended: with a non-empty effective accessibility need, a desk
passes the accessibility filter iff the need appears verbatim among its
feature tags or verbatim as a substring of the lowercased location
description (so the comparison is case-insensitive only in the
case of the description, not of the need); consequently every returned desk
satisfies this verbatim match. -/
theorem c3_accessibility_verbatim_match :
    (∀ (p : EffectivePrefs) (d : Desk), p.accessibilityNeed ≠ "" →
      (accessibilityOk p d = true ↔
        (p.accessibilityNeed ∈ d.features ∨
          strIncludes (strToLower d.location_description)
            p.accessibilityNeed = true))) ∧
    (∀ (env : Env) (eid : Option String) (nlp : NlpOutcome) (now : Int)
      (d : Desk), d ∈ matchDesks env eid nlp now →
      (effectiveOf env eid nlp).accessibilityNeed ≠ "" →
      ((effectiveOf env eid nlp).accessibilityNeed ∈ d.features ∨
        strIncludes (strToLower d.location_description)
          (effectiveOf env eid nlp).accessibilityNeed = true)) := by
  have hfilter : ∀ (p : EffectivePrefs) (d : Desk), p.accessibilityNeed ≠ "" →
      (accessibilityOk p d = true ↔
        (p.accessibilityNeed ∈ d.features ∨
          strIncludes (strToLower d.location_description)
            p.accessibilityNeed = true)) := by
    intro p d hne
    unfold accessibilityOk
    rw [if_neg hne]
    simp
  refine ⟨hfilter, ?_⟩
  intro env eid nlp now d hd hne
  have hc := mem_matchDesks hd
  have ha := candidates_pred hc (accessibilityOk (effectiveOf env eid nlp))
    (by simp [cascadePreds])
  exact (hfilter _ _ hne).mp ha

/-- Witness for C3 amended: a desk carrying the need as a feature tag is
returned and satisfies the verbatim match. -/
def deskW3 : Desk :=
  { id := "D-3w", type := "regular", zone := "Z", area_id := "A1",
    features := ["wheelchair"], status := "available", last_used := 0,
    location_description := "" }

def envW3 : Env :=
  { desks := [deskW3], occupancy_data := [], spaces := [],
    employee_preferences := [], policies := [], metrics := [], sensors := [] }

def nlpW3 : NlpOutcome :=
  .success { emptyRaw with accessibility_needs := .jstr "wheelchair" }

theorem c3_accessibility_verbatim_match_witness :
    "wheelchair" ∈ deskW3.features ∨
      strIncludes (strToLower deskW3.location_description) "wheelchair" = true :=
  c3_accessibility_verbatim_match.2 envW3 none nlpW3 0 deskW3 (by decide)
    (by decide)

/-! ## C4: the degenerate request does not return standing desks -/

def deskX4 : Desk :=
  { id := "D-4", type := "standing", zone := "Z", area_id := "A1",
    features := [], status := "available", last_used := 0,
    location_description := "" }

def envX4 : Env :=
  { desks := [deskX4], occupancy_data := [], spaces := [],
    employee_preferences := [], policies := [], metrics := [], sensors := [] }

/-- C4 counterexample: with an absent employee id and a failed NLP parse
every effective preference list is empty, yet the only desk, an available
standing desk, is excluded, so the result is not the set of all available
desks: the standing-desk predicate rejects a standing desk whenever the
merged desk-preference list lacks the standing token. -/
theorem c4_counterexample :
    deskX4.status = "available" ∧
    (effectiveOf envX4 none .failure).equipNeeds = [] ∧
    (effectiveOf envX4 none .failure).adjPrefs = [] ∧
    (effectiveOf envX4 none .failure).deskPreferences = [] ∧
    matchDesks envX4 none .failure 0 = [] := by decide

/-- C4 amended: with an absent employee id and empty parsed preferences,
matchDesks (total in this embedding, hence never throwing) returns exactly
the available desks of type other than standing that also pass the
capacity, sanitization and sensor predicates, ordered by the
recency/utilization keys only; the desk-type, equipment, location and
accessibility predicates remove nothing, but the standing-desk predicate
removes every standing desk. -/
theorem c4_empty_request_degrades (env : Env) (now : Int) :
    matchDesks env none .failure now =
      sorter [] (buildMetricsMap env.metrics)
        (env.desks.filter (fun d =>
          availabilityOk d && (!(d.type == "standing") &&
            (capacityOk env d && (sanitizationOk env now d &&
              sensorOk env now d))))) := by
  have hE : findEmployeePrefs env none = none := by
    apply List.find?_eq_none.mpr
    intro x _
    simp
  have heff : effectiveOf env none .failure =
      { deskPreferences := [], finalDeskType := none, equipNeeds := [],
        adjPrefs := [], preferredLocation := "", accessibilityNeed := "" } := by
    unfold effectiveOf effectivePrefs
    rw [hE]
    rfl
  unfold matchDesks rankedAdjOf rankedOtherOf adjListOf otherListOf
  rw [heff]
  simp only [isAdjacent, List.any_nil, Bool.not_false, List.filter_false,
    List.filter_true]
  have hnil : sorter [] (buildMetricsMap env.metrics) [] = [] := rfl
  rw [hnil, List.nil_append]
  congr 1
  unfold candidatesOf
  apply List.filter_congr
  intro d _
  simp only [passAll, cascadePreds, List.all_cons, List.all_nil,
    deskTypeOk, standingOk, equipmentOk, locationOk, accessibilityOk,
    Bool.and_true, Bool.not_false]
  simp

/-! ## C1: the sensor recency window is bypassed by the test override -/

def deskX1 : Desk :=
  { id := "D-1", type := "regular", zone := "Zone A", area_id := "A1",
    features := [], status := "available", last_used := -100000000,
    location_description := "corner" }

def envX1 : Env :=
  { desks := [deskX1], occupancy_data := [], spaces := [],
    employee_preferences := [], policies := [], metrics := [],
    sensors := [{ area_id := "A1", status := "active", last_reading := 0 }] }

/-- C1: the area of the desk has an active sensor whose last reading is two
hours old, outside the one-hour window the spec intends (specSensorFresh
is false), yet matchDesks returns the desk, because the hard-coded
override in the source forces the computed reading age to zero before the
one-hour comparison. -/
theorem c1_sensor_recency_bypassed :
    buildSensorMap envX1.sensors deskX1.area_id =
      some { status := "active", lastReading := 0 } ∧
    specSensorFresh (2 * msPerHour) 0 = false ∧
    matchDesks envX1 none .failure (2 * msPerHour) = [deskX1] := by decide

end OccupancyPlanner
